/-
Verification of the spec of the `temp_nextjs_onion` repository against its
source: the Cart domain entity and its use cases (TypeScript under
`src/frontend`), the Zustand optimistic cart store, and the JSON-spec-driven
code-generation workflow (dispatcher, validator, naming resolver, generators)
described by the `.windsurf/workflows/*.md` documents.

Shallow embedding conventions:
- TypeScript `Map<string, T>` / `Record<string, T>` become insertion-ordered
  association lists `List (String × T)`; `Map.get`/`record[k]` is `List.lookup`.
- `number` quantities become `Int` (all claim-relevant quantities are integers).
- `throw` becomes `Except`; promise rejection of a collaborator is an
  `Except` parameter supplied to the embedded function.
-/
import Mathlib

namespace Onion

/-! ## Domain entity: `Cart` (src/frontend/src/domain/entities/Cart.ts) -/

/-- `CartItem` from `Cart.ts`: `{ productId: string; quantity: number }`. -/
structure CartItem where
  productId : String
  quantity : Int
  deriving Repr, DecidableEq

/-- Errors thrown by the embedded code.  `Cart.addItem` throws
`Error("Quantity must be positive")`, the spec's `ValidationError`. -/
inductive DomainError where
  | validationError (msg : String)
  deriving Repr, DecidableEq

/-- `Cart` from `Cart.ts`: `private items: Map<string, CartItem>`, embedded as
an insertion-ordered association list keyed by `productId`. -/
structure Cart where
  items : List (String × CartItem)
  deriving Repr, DecidableEq

/-- `new Cart()`: the empty items map. -/
def Cart.empty : Cart := ⟨[]⟩

/-- In-place `existing.quantity += qty` on the map entry for `productId`
(the entry is known to exist when this is used). -/
def bumpQty (items : List (String × CartItem)) (productId : String) (qty : Int) :
    List (String × CartItem) :=
  items.map fun kv =>
    if kv.1 = productId then (kv.1, ⟨kv.2.productId, kv.2.quantity + qty⟩) else kv

/-- `Cart.addItem(productId, qty = 1)` from `Cart.ts`:
throws when `qty <= 0`; otherwise merges into the existing entry
(`existing.quantity += qty`) or inserts `{productId, quantity: qty}`. -/
def Cart.addItem (c : Cart) (productId : String) (qty : Int := 1) :
    Except DomainError Cart :=
  if qty ≤ 0 then .error (.validationError "Quantity must be positive")
  else match c.items.lookup productId with
    | some _ => .ok ⟨bumpQty c.items productId qty⟩
    | none => .ok ⟨c.items ++ [(productId, ⟨productId, qty⟩)]⟩

/-- `Cart.getItems()`: `Array.from(this.items.values())`, the map's values in
insertion order. -/
def Cart.getItems (c : Cart) : List CartItem :=
  c.items.map Prod.snd

/-! ## Application use cases (AddItemToCart.ts, GetCart.ts) over an
`ICartRepository` whose stored state is a map `userId → Cart`. -/

/-- The state behind an `ICartRepository`: `load` is `lookup`, `save` is an
upsert keyed by `userId`. -/
def RepoState := List (String × Cart)

/-- Upsert into an association list: replace the existing entry for the key,
or append a new one (the behavior of saving under a key / `{...m, [k]: v}`). -/
def setKey {α : Type} : List (String × α) → String → α → List (String × α)
  | [], k, v => [(k, v)]
  | (k', v') :: rest, k, v =>
    if k' = k then (k, v) :: rest else (k', v') :: setKey rest k v

/-- `AddItemToCart.execute(userId, productId, qty)` from
`application/use_cases/AddItemToCart.ts`:
`const cart = (await repo.load(userId)) ?? new Cart(); cart.addItem(...);
await repo.save(userId, cart); return cart.getItems();`.
Returns the repository state after the call, the thrown error or returned
item list, and the number of `repo.save` invocations performed. -/
def AddItemToCart.execute (st : RepoState) (userId productId : String)
    (qty : Int := 1) : RepoState × Except DomainError (List CartItem) × Nat :=
  let cart := (st.lookup userId).getD Cart.empty
  match cart.addItem productId qty with
  | .error e => (st, .error e, 0)
  | .ok cart2 => (setKey st userId cart2, .ok cart2.getItems, 1)

/-- `GetCart.execute(userId)` from `application/use_cases/GetCart.ts`:
`const cart = await this.cartRepo.load(userId); return cart?.getItems() ?? [];`. -/
def GetCart.execute (st : RepoState) (userId : String) : List CartItem :=
  match st.lookup userId with
  | some cart => cart.getItems
  | none => []

/-! ## Application store: Zustand `useCartStore` (src/unnamed/part_008) -/

/-- The store's state: `carts: Record<string, CartItem[]>` plus the
`currentCart` selector. -/
structure CartStoreState where
  carts : List (String × List CartItem)
  currentCart : List CartItem
  deriving Repr, DecidableEq

/-- `ensureArray` from the store: `Array.isArray(cart) ? cart : []`.  In the
typed embedding the argument is already a `CartItem[]`, so it is the
identity. -/
def ensureArray (cart : List CartItem) : List CartItem := cart

/-- `createOptimisticCart(currentCart, productId, qty)` from the store:
update the first entry whose `productId` matches (`findIndex`, then spread
with `quantity + qty`), else append `{productId, quantity: qty}`. -/
def createOptimisticCart : List CartItem → String → Int → List CartItem
  | [], productId, qty => [⟨productId, qty⟩]
  | item :: rest, productId, qty =>
    if item.productId = productId then ⟨item.productId, item.quantity + qty⟩ :: rest
    else item :: createOptimisticCart rest productId qty

/-- The form data read by `addToCartOptimistic`: `productId` as a string and
the result of `parseInt(formData.get('qty'))`, `none` standing for `NaN`. -/
structure FormDataCart where
  productId : String
  qtyField : Option Int
  deriving Repr, DecidableEq

/-- `parseInt(formData.get('qty') as string) || 1`: `NaN` and `0` are falsy
and coalesce to `1`. -/
def parseQty : Option Int → Int
  | none => 1
  | some n => if n = 0 then 1 else n

/-- The store's `set((state) => ({carts: {...state.carts, [userId]: cart},
currentCart: cart}))` update. -/
def CartStoreState.setCart (s : CartStoreState) (userId : String)
    (cart : List CartItem) : CartStoreState :=
  ⟨setKey s.carts userId cart, cart⟩

/-- `addToCartOptimistic(userId, formData)` from the store.  The two awaited
collaborators inside the `try` block are supplied as outcomes: `addOutcome`
for `createAddItemToCart().execute(...)` and `getOutcome` for
`createGetCart().execute(userId)` (its payload is the authoritative cart).
Returns the state right after the synchronous optimistic `set`, the final
state, and the re-thrown error or success. -/
def addToCartOptimistic (s : CartStoreState) (userId : String)
    (formData : FormDataCart) (addOutcome : Except String Unit)
    (getOutcome : Except String (List CartItem)) :
    CartStoreState × CartStoreState × Except String Unit :=
  let productId := formData.productId
  let qty := parseQty formData.qtyField
  let currentCart := (s.carts.lookup userId).getD []
  let cartSnapshot := currentCart
  let optimisticCart := createOptimisticCart currentCart productId qty
  let s1 := s.setCart userId optimisticCart
  match addOutcome with
  | .error e => (s1, s1.setCart userId cartSnapshot, .error e)
  | .ok _ =>
    match getOutcome with
    | .error e => (s1, s1.setCart userId cartSnapshot, .error e)
    | .ok realCart => (s1, s1.setCart userId (ensureArray realCart), .ok ())

/-! ## Code-generation core (the `.windsurf/workflows/*.md` documents).

The generation pipeline exists in the repository only as declarative
workflow documents (`0-generate-class.md`, `generate-application-class`,
`generate-presentation-class`, the infrastructure workflows), not as
executable code; the definitions below embed those documents' rules, and
where a document is silent the definition is modelled from the spec. -/

/-- String.startsWith of the embedding (JS `startsWith` / the workflow's
"If `layer` starts with ..."), on character lists so it evaluates. -/
def strStarts (s p : String) : Bool := s.data.take p.data.length == p.data

/-- String.endsWith of the embedding, on character lists. -/
def strEnds (s p : String) : Bool :=
  s.data.drop (s.data.length - p.data.length) == p.data

/-- `MethodSpec` from the Input JSON Schema of the workflow documents. -/
structure MethodSpec where
  method_name : String
  description : Option String := none
  parameters : List String := []
  return_type : Option String := none
  deriving Repr, DecidableEq

/-- `ClassSpec` from the Input JSON Schema of the workflow documents
(spec §3): `class_name`, `layer`, optional `description`, `attributes`,
`methods`, `dependencies`. -/
structure ClassSpec where
  class_name : String
  layer : String
  description : Option String := none
  attributes : List String := []
  methods : List MethodSpec := []
  dependencies : List String := []
  deriving Repr, DecidableEq

/-- The four per-layer generators (spec §2). -/
inductive Generator where
  | domain | application | infrastructure | presentation
  deriving Repr, DecidableEq

/-- Generator-time errors (spec §7 taxonomy). -/
inductive GenError where
  | schemaError (msg : String)
  | namingError (msg : String)
  | routingError (msg : String)
  deriving Repr, DecidableEq

/-- `route` per the Routing rules of `0-generate-class.md` (branch order as
written there: infrastructure, presentation, domain, application).
Modelled from the spec for the failure case: the workflow document lists
only the four branches; spec §4.3/§7 makes an unrecognized `layer` prefix
fail with `RoutingError`. -/
def route (layer : String) : Except GenError Generator :=
  if strStarts layer "infrastructure/" then .ok .infrastructure
  else if strStarts layer "presentation/" then .ok .presentation
  else if strStarts layer "domain/" then .ok .domain
  else if strStarts layer "application/" then .ok .application
  else .error (.routingError layer)

/-- The dispatcher: select the generator from `layer` and pass the full
spec through unmodified (`0-generate-class.md` Consistency rule: "Pass
through all original input fields unchanged"). -/
def dispatch (spec : ClassSpec) : Except GenError (Generator × ClassSpec) :=
  (route spec.layer).map fun g => (g, spec)

/-- The enumerated `layer` values (spec §3 data model). -/
def validLayers : List String :=
  ["domain/entity", "domain/service", "application/interface",
   "application/use_case", "application/store", "infrastructure/model",
   "infrastructure/repository", "infrastructure/adapter",
   "presentation/schema", "presentation/dependency", "presentation/router",
   "presentation/component", "presentation/hook"]

/-- The segment of a `layer` value before `/` (the glossary's "Layer
prefix"). -/
def layerSeg (layer : String) : String := ⟨layer.data.takeWhile (· ≠ '/')⟩

/-- The generator named by a layer's leading segment (spec §4.3 state
machine: four terminal branches). -/
def generatorOfSeg : String → Option Generator
  | "domain" => some .domain
  | "application" => some .application
  | "infrastructure" => some .infrastructure
  | "presentation" => some .presentation
  | _ => none

/-! ### Naming Resolver (spec §4.1, workflow "Variable Naming Convention") -/

/-- CRUD affixes stripped from `class_name` (spec §4.1). -/
def crudHeads : List String := ["Create", "Update", "Delete", "Get", "List"]

/-- CRUD/type suffixes stripped from `class_name` (spec §4.1). -/
def crudTails : List String :=
  ["Request", "Response", "UseCase", "Repository", "Service"]

/-- Modelled from the spec (§4.1): strip one matching CRUD head and one
matching tail from `class_name` to obtain `base` (e.g.
`CreateProductUseCase` → `Product`); no resolver code exists in the
repository, only the workflow documents' convention section. -/
def stripAffixes (name : String) : String :=
  let afterHead :=
    match crudHeads.find? (fun p => strStarts name p) with
    | some p => (⟨name.data.drop p.data.length⟩ : String)
    | none => name
  match crudTails.find? (fun p => strEnds afterHead p) with
  | some p => (⟨afterHead.data.take (afterHead.data.length - p.data.length)⟩ : String)
  | none => afterHead

/-- snake_case conversion on character lists: a lowercase→uppercase
boundary becomes `_`, everything lowercased (spec §4.1 word-boundary
detection on case transitions). -/
def toSnakeCore : List Char → List Char
  | [] => []
  | [c] => [c.toLower]
  | a :: b :: rest =>
    if a.isLower ∧ b.isUpper then a.toLower :: '_' :: toSnakeCore (b :: rest)
    else a.toLower :: toSnakeCore (b :: rest)

/-- snake_case of a name. -/
def toSnake (s : String) : String := ⟨toSnakeCore s.data⟩

/-- PascalCase of the base name: capitalize the first character (the base
derived from a PascalCase `class_name` is already word-joined). -/
def toPascal (s : String) : String :=
  match s.data with
  | [] => ""
  | c :: rest => ⟨c.toUpper :: rest⟩

/-- The irregular-plural lookup table (workflow rule in
`generate-presentation-class.md`: "Irregulars: `person -> people`,
`category -> categories`"). -/
def irregularPlurals : List (String × String) :=
  [("person", "people"), ("category", "categories")]

/-- A sibilant ending, after which the regular rule appends `es`
(spec §4.1). -/
def sibilantEnding (w : String) : Bool :=
  strEnds w "s" || strEnds w "x" || strEnds w "z" || strEnds w "ch" || strEnds w "sh"

/-- Modelled from the spec (§4.1): the regular pluralization rule — `y` →
`ies`, `es` after sibilant endings, otherwise append `s`. -/
def regularPlural (w : String) : String :=
  if strEnds w "y" then (⟨w.data.take (w.data.length - 1)⟩ : String) ++ "ies"
  else if sibilantEnding w then w ++ "es"
  else w ++ "s"

/-- Pluralization: the irregular table is consulted before the regular
rule (spec §4.1/§4.7). -/
def pluralize (w : String) : String :=
  match irregularPlurals.lookup w with
  | some p => p
  | none => regularPlural w

/-- The naming derivations of spec §4.1's `resolve`. -/
structure Naming where
  base : String
  snake_base : String
  pascal_base : String
  plural_snake_base : String
  deriving Repr, DecidableEq

/-- Modelled from the spec (§4.1): `resolve(class_name)` — strip CRUD
affixes, derive snake/Pascal/plural forms; fails with `NamingError` only
when the name is empty after stripping. -/
def resolve (class_name : String) : Except GenError Naming :=
  let base := stripAffixes class_name
  if base.data.isEmpty then .error (.namingError class_name)
  else
    let snake := toSnake base
    .ok ⟨base, snake, toPascal base, pluralize snake⟩

/-! ### Layer Schema Validator (spec §4.2, dependency rule of
`generate-application-class` / part_013) -/

/-- The interface-naming convention: starts with `I` followed by an
uppercase letter (spec §4.2; part_013: "Each dependency must be an
interface (name starts with `I`)", interfaces being named `I<Name>`). -/
def isInterfaceStyle (name : String) : Bool :=
  match name.data with
  | 'I' :: c :: _ => c.isUpper
  | _ => false

/-- The layers whose `dependencies` entries must obey the interface-naming
convention (spec §4.2). -/
def depsRuleLayers : List String := ["application/use_case", "infrastructure/adapter"]

/-- The `SchemaError` message naming an offending dependency. -/
def badDepMsg (dep : String) : String :=
  "dependency " ++ dep ++ " must start with I followed by an uppercase letter"

/-- Modelled from the spec (§4.2): the validator's dependency-naming check
— for `application/use_case` and `infrastructure/adapter` the first
`dependencies` entry violating the convention fails with a `SchemaError`
naming it; the validator exists only as workflow rules, not code. -/
def checkDeps (spec : ClassSpec) : Except GenError Unit :=
  if spec.layer ∈ depsRuleLayers then
    match spec.dependencies.find? (fun d => !isInterfaceStyle d) with
    | some d => .error (.schemaError (badDepMsg d))
    | none => .ok ()
  else .ok ()

/-- Modelled from the spec (§4.2): `validate(spec)` — `class_name` and an
enumerated `layer` are required, then the dependency-naming check runs. -/
def validate (spec : ClassSpec) : Except GenError ClassSpec :=
  if spec.class_name.data.isEmpty then .error (.schemaError "class_name is required")
  else if spec.layer ∉ validLayers then
    .error (.schemaError ("unknown layer " ++ spec.layer))
  else
    match checkDeps spec with
    | .error e => .error e
    | .ok _ => .ok spec

/-! ### Batch driver and Artifact Registry (spec §2, §4.3, §7;
`0-generate-class.md` Steps 1–3) -/

/-- `ArtifactDescriptor` (spec §3): the four path/URL fields appended to an
item after generation. -/
structure ArtifactDescriptor where
  code_path : String
  code_raw_url : String
  test_path : String
  test_raw_url : String
  deriving Repr, DecidableEq

/-- The raw-URL templating of the workflow documents:
`https://raw.githubusercontent.com/Kira7dn/fastapi_template/main/{path}`. -/
def rawUrl (path : String) : String :=
  "https://raw.githubusercontent.com/Kira7dn/fastapi_template/main/" ++ path

/-- Modelled from the spec (§4.4–§4.7 and the workflow "Location" rules):
the artifact paths a per-layer generator emits for one spec — code under
the layer's directory at `snake_case(class_name).py`, matching test under
`backend/tests/unit/`, raw URLs by templating.  A deterministic function
of the generator and the spec. -/
def generate (g : Generator) (spec : ClassSpec) : ArtifactDescriptor :=
  let snake := toSnake spec.class_name
  let dir :=
    match g with
    | .domain => "backend/app/domain/"
    | .application => "backend/app/application/"
    | .infrastructure => "backend/app/infrastructure/"
    | .presentation => "backend/app/presentation/"
  let codePath := dir ++ snake ++ ".py"
  let testPath := "backend/tests/unit/test_" ++ snake ++ ".py"
  ⟨codePath, rawUrl codePath, testPath, rawUrl testPath⟩

/-- The batch driver's record for one item: its `class_name`, the artifact
when generation succeeded, and the structured error recorded when it
failed (spec §7 propagation policy: errors are logged against the item's
`class_name` and its artifact fields are omitted). -/
structure BatchItemResult where
  class_name : String
  artifact : Option ArtifactDescriptor
  recordedError : Option GenError
  deriving Repr, DecidableEq

/-- Modelled from the spec (§4.3/§7): process one batch item — route by
`layer` prefix and generate; a `RoutingError` is recorded against the
item's `class_name` with no artifact fields.  (`0-generate-class.md`
declares the routing and pass-through; the per-item error recording is
spec §7's propagation policy.) -/
def processItem (spec : ClassSpec) : BatchItemResult :=
  match dispatch spec with
  | .error e => ⟨spec.class_name, none, some e⟩
  | .ok (g, s) => ⟨spec.class_name, some (generate g s), none⟩

/-- Modelled from the spec (§5): the batch driver processes each item
independently of every other item; a failed item is skipped and processing
continues. -/
def processBatch (batch : List ClassSpec) : List BatchItemResult :=
  batch.map processItem

/-- The Artifact Registry's path map: `class_name` → artifact entry
(spec §2, §3 invariants). -/
def Registry := List (String × ArtifactDescriptor)

/-- The `(class_name, artifact)` pairs of the successful items of a batch
run — what the registry records. -/
def successEntries (results : List BatchItemResult) :
    List (String × ArtifactDescriptor) :=
  results.filterMap fun r => r.artifact.map fun a => (r.class_name, a)

/-- Fold a sequence of idempotent upserts into the registry (spec §3:
re-submission with the same `class_name` overwrites prior artifacts, never
creates duplicates). -/
def applyAll (reg : List (String × ArtifactDescriptor))
    (entries : List (String × ArtifactDescriptor)) :
    List (String × ArtifactDescriptor) :=
  entries.foldl (fun r kv => setKey r kv.1 kv.2) reg

/-- Modelled from the spec (§2 data flow): one batch submission — process
every item, then merge the successful artifacts into the registry by
idempotent upsert keyed on `class_name`. -/
def runBatch (reg : Registry) (batch : List ClassSpec) :
    List BatchItemResult × Registry :=
  let results := processBatch batch
  (results, applyAll reg (successEntries results))

/-! ### Infrastructure adapter error mapping (part_015: Rules and the
`_map_error`/`_to_dto`/`_request` appendix code) -/

/-- The four typed adapter errors of part_015's Rules. -/
inductive ExternalError where
  | externalBadRequest (msg : String)
  | externalRateLimitError (msg : String)
  | externalServerError (msg : String)
  | externalServiceError (msg : String)
  deriving Repr, DecidableEq

/-- The external response body fields read by `_to_dto` (`data.get(...)`,
absent keys giving `None`). -/
structure PaymentData where
  id : Option String := none
  status : Option String := none
  amount : Option Int := none
  currency : Option String := none
  deriving Repr, DecidableEq

/-- The mapped DTO shape returned by `_to_dto`. -/
structure PaymentDto where
  id : Option String
  status : Option String
  amount : Option Int
  currency : Option String
  deriving Repr, DecidableEq

/-- `_to_dto` from part_015's appendix: the DTO built from the response
body's fields. -/
def toDto (d : PaymentData) : PaymentDto := ⟨d.id, d.status, d.amount, d.currency⟩

/-- `_map_error` from part_015's appendix: `400` → `ExternalBadRequest`,
`429` → `ExternalRateLimitError`, `>= 500` → `ExternalServerError`, any
other status → `ExternalServiceError`. -/
def mapError (status : Nat) : ExternalError :=
  if status = 400 then .externalBadRequest "Bad request to Stripe"
  else if status = 429 then .externalRateLimitError "Rate limited by Stripe"
  else if 500 ≤ status then .externalServerError "Stripe server error"
  else .externalServiceError "Unexpected Stripe error"

/-- The outcome of the external call surface: a response with a status and
body, or a transport failure (timeout/connection error). -/
inductive HttpOutcome where
  | response (status : Nat) (body : PaymentData)
  | transportFailure (msg : String)
  deriving Repr, DecidableEq

/-- `create_payment_intent` from part_015's appendix, with the `_request`
helper's retry exhaustion folded in: a transport failure (after the
retries) raises `ExternalServiceError`; a response with status `>= 400`
raises `_map_error`'s typed error; otherwise the mapped DTO is returned
(never the raw response). -/
def createPaymentIntent (outcome : HttpOutcome) : Except ExternalError PaymentDto :=
  match outcome with
  | .transportFailure msg =>
    .error (.externalServiceError ("Request failed after retries: " ++ msg))
  | .response status body =>
    if 400 ≤ status then .error (mapError status) else .ok (toDto body)

/-! ### Concrete batch items used by the scenario theorems -/

/-- A well-formed domain item (item 1 of the partial-failure scenario). -/
def specOrder : ClassSpec :=
  { class_name := "Order", layer := "domain/entity",
    attributes := ["id: int", "items: list", "status: str"] }

/-- The bad item: its `layer` has no recognized prefix (item 2). -/
def specBadLayer : ClassSpec :=
  { class_name := "Broken", layer := "unknown_layer" }

/-- A well-formed application item (item 3). -/
def specGetCartUC : ClassSpec :=
  { class_name := "GetCartUseCase", layer := "application/use_case",
    dependencies := ["ICartRepository"] }

/-- The use-case spec of the dependency-naming scenario with the
convention violated. -/
def specDepBad : ClassSpec :=
  { class_name := "AddItemToCart", layer := "application/use_case",
    dependencies := ["CartRepo"] }

/-- The same use-case spec with the convention observed. -/
def specDepGood : ClassSpec :=
  { class_name := "AddItemToCart", layer := "application/use_case",
    dependencies := ["ICartRepo"] }

end Onion

namespace Onion

/-! ## Theorems -/

/-- Looking up the upserted key returns the new value. -/
theorem setKey_lookup {α : Type} (l : List (String × α)) (k : String) (v : α) :
    (setKey l k v).lookup k = some v := by
  induction l with
  | nil => simp [setKey, List.lookup]
  | cons hd tl ih =>
    obtain ⟨k', v'⟩ := hd
    by_cases h : k' = k
    · simp [setKey, h, List.lookup]
    · have hb : (k == k') = false := beq_false_of_ne (Ne.symm h)
      simp [setKey, h, List.lookup, hb, ih]

/-- C2: on a fresh `Cart`, `addItem("p1", 2)` then `getItems()` yields exactly
`[{p1, 2}]`; a further `addItem("p1", 3)` yields exactly `[{p1, 5}]`
(quantities merge by `productId`, never a duplicate entry); and on every cart
state, `addItem` with any non-positive quantity fails with the validation
error and changes nothing. -/
theorem cart_addItem_spec :
    (∃ c₁ : Cart, Cart.empty.addItem "p1" 2 = .ok c₁ ∧
      c₁.getItems = [⟨"p1", 2⟩] ∧
      ∃ c₂ : Cart, c₁.addItem "p1" 3 = .ok c₂ ∧
        c₂.getItems = [⟨"p1", 5⟩]) ∧
    (∀ (c : Cart) (productId : String) (qty : Int), qty ≤ 0 →
      c.addItem productId qty = .error (.validationError "Quantity must be positive")) := by
  constructor
  · exact ⟨⟨[("p1", ⟨"p1", 2⟩)]⟩, by rfl, by rfl,
      ⟨[("p1", ⟨"p1", 5⟩)]⟩, by rfl, by rfl⟩
  · intro c productId qty hq
    simp [Cart.addItem, hq]

/-- Witness for `cart_addItem_spec`: its non-positive branch applied at the
empty cart, product `"p1"` and quantity `0`. -/
theorem cart_addItem_spec_witness :
    Cart.empty.addItem "p1" 0 = .error (.validationError "Quantity must be positive") :=
  cart_addItem_spec.2 Cart.empty "p1" 0 (by norm_num)

/-- C9: `AddItemToCart.execute` is atomic w.r.t. the repository on invalid
input: for every repository state, a non-positive `qty` throws before
`repo.save` is invoked (zero saves, state unchanged); a positive `qty` loads
the existing cart (or a fresh one), merges the item, saves exactly once under
the same `userId`, and returns the saved cart's item list. -/
theorem addItemToCart_execute_spec :
    (∀ (st : RepoState) (userId productId : String) (qty : Int), qty ≤ 0 →
      AddItemToCart.execute st userId productId qty =
        (st, .error (.validationError "Quantity must be positive"), 0)) ∧
    (∀ (st : RepoState) (userId productId : String) (qty : Int), 0 < qty →
      ∃ cart2 : Cart,
        ((List.lookup userId st).getD Cart.empty).addItem productId qty = .ok cart2 ∧
        AddItemToCart.execute st userId productId qty =
          (setKey st userId cart2, .ok cart2.getItems, 1)) := by
  constructor
  · intro st userId productId qty hq
    simp [AddItemToCart.execute, Cart.addItem, hq]
  · intro st userId productId qty hq
    have hq' : ¬ qty ≤ 0 := by omega
    cases h : ((List.lookup userId st).getD Cart.empty).items.lookup productId with
    | some item =>
      exact ⟨⟨bumpQty ((List.lookup userId st).getD Cart.empty).items productId qty⟩,
        by simp [Cart.addItem, hq', h],
        by simp [AddItemToCart.execute, Cart.addItem, hq', h]⟩
    | none =>
      exact ⟨⟨((List.lookup userId st).getD Cart.empty).items ++
          [(productId, ⟨productId, qty⟩)]⟩,
        by simp [Cart.addItem, hq', h],
        by simp [AddItemToCart.execute, Cart.addItem, hq', h]⟩

/-- Witness for `addItemToCart_execute_spec`: the invalid-input branch at the
empty repository with quantity `0` — no save, state unchanged, error thrown. -/
theorem addItemToCart_execute_spec_witness :
    AddItemToCart.execute [] "u1" "p1" 0 =
      ([], .error (.validationError "Quantity must be positive"), 0) :=
  addItemToCart_execute_spec.1 [] "u1" "p1" 0 (by norm_num)

/-- C10: `GetCart.execute(userId)` is total for missing carts: when the
repository's `load` returns `null` it returns the empty item list (it neither
throws nor returns null — the embedding's return type is a plain list), and
for every stored cart it returns exactly that cart's items. -/
theorem getCart_execute_total :
    (∀ (st : RepoState) (userId : String), List.lookup userId st = none →
      GetCart.execute st userId = []) ∧
    (∀ (st : RepoState) (userId : String) (cart : Cart),
      List.lookup userId st = some cart →
      GetCart.execute st userId = cart.getItems) := by
  constructor
  · intro st userId h; simp [GetCart.execute, h]
  · intro st userId cart h; simp [GetCart.execute, h]

/-- Witness for `getCart_execute_total`: the empty repository stores nothing
for `"u1"`, and the result is the empty list. -/
theorem getCart_execute_total_witness :
    GetCart.execute [] "u1" = [] :=
  getCart_execute_total.1 [] "u1" rfl

/-- C1: `addToCartOptimistic` first applies the optimistic merge for `userId`
synchronously (the intermediate state shows the merged cart); if the
downstream use case (or the authoritative re-fetch) fails, the cart for
`userId` is restored exactly to the pre-mutation snapshot and the error is
re-thrown; if it succeeds, the cart for `userId` is replaced by the
authoritative result. -/
theorem addToCartOptimistic_spec (s : CartStoreState) (userId : String)
    (formData : FormDataCart) (addOutcome : Except String Unit)
    (getOutcome : Except String (List CartItem)) :
    ((addToCartOptimistic s userId formData addOutcome getOutcome).1.carts.lookup userId =
      some (createOptimisticCart ((s.carts.lookup userId).getD [])
        formData.productId (parseQty formData.qtyField))) ∧
    (∀ e : String,
      addOutcome = .error e ∨ (addOutcome = .ok () ∧ getOutcome = .error e) →
      (addToCartOptimistic s userId formData addOutcome getOutcome).2.1.carts.lookup userId =
        some ((s.carts.lookup userId).getD []) ∧
      (addToCartOptimistic s userId formData addOutcome getOutcome).2.2 = .error e) ∧
    (∀ real : List CartItem, addOutcome = .ok () → getOutcome = .ok real →
      (addToCartOptimistic s userId formData addOutcome getOutcome).2.1.carts.lookup userId =
        some real ∧
      (addToCartOptimistic s userId formData addOutcome getOutcome).2.2 = .ok ()) := by
  refine ⟨?_, ?_, ?_⟩
  · cases addOutcome with
    | error e => simp [addToCartOptimistic, CartStoreState.setCart, setKey_lookup]
    | ok u =>
      cases getOutcome <;>
        simp [addToCartOptimistic, CartStoreState.setCart, setKey_lookup]
  · intro e he
    rcases he with he | ⟨ha, hg⟩
    · subst he
      simp [addToCartOptimistic, CartStoreState.setCart, setKey_lookup]
    · subst ha; subst hg
      simp [addToCartOptimistic, CartStoreState.setCart, setKey_lookup]
  · intro real ha hg
    subst ha; subst hg
    simp [addToCartOptimistic, CartStoreState.setCart, setKey_lookup, ensureArray]

/-- Witness for `addToCartOptimistic_spec`: from the empty store, adding
`p1` for `"u1"` with a failing use case rolls the cart back to the empty
pre-mutation snapshot and re-throws the error. -/
theorem addToCartOptimistic_spec_witness :
    (addToCartOptimistic ⟨[], []⟩ "u1" ⟨"p1", some 1⟩ (.error "boom")
        (.ok [⟨"p1", 1⟩])).2.1.carts.lookup "u1" = some [] ∧
    (addToCartOptimistic ⟨[], []⟩ "u1" ⟨"p1", some 1⟩ (.error "boom")
        (.ok [⟨"p1", 1⟩])).2.2 = .error "boom" :=
  (addToCartOptimistic_spec ⟨[], []⟩ "u1" ⟨"p1", some 1⟩ (.error "boom")
    (.ok [⟨"p1", 1⟩])).2.1 "boom" (Or.inl rfl)

/-- C3: for every valid `ClassSpec`, the dispatcher's routing is a pure
function of the `layer` field's leading segment (the part before `/`): that
segment selects exactly the matching generator, and the full spec is passed
through to it unmodified. -/
theorem dispatch_routes_by_layer_seg (spec : ClassSpec)
    (h : spec.layer ∈ validLayers) :
    ∃ g : Generator, generatorOfSeg (layerSeg spec.layer) = some g ∧
      dispatch spec = .ok (g, spec) := by
  have hr : ∀ (l : String) (g : Generator), route l = .ok g → spec.layer = l →
      dispatch spec = .ok (g, spec) := by
    intro l g hrt hl
    simp [dispatch, hl, hrt, Except.map]
  simp only [validLayers, List.mem_cons, List.not_mem_nil, or_false] at h
  rcases h with h|h|h|h|h|h|h|h|h|h|h|h|h
  · exact ⟨.domain, by rw [h]; decide, hr "domain/entity" _ rfl h⟩
  · exact ⟨.domain, by rw [h]; decide, hr "domain/service" _ rfl h⟩
  · exact ⟨.application, by rw [h]; decide, hr "application/interface" _ rfl h⟩
  · exact ⟨.application, by rw [h]; decide, hr "application/use_case" _ rfl h⟩
  · exact ⟨.application, by rw [h]; decide, hr "application/store" _ rfl h⟩
  · exact ⟨.infrastructure, by rw [h]; decide, hr "infrastructure/model" _ rfl h⟩
  · exact ⟨.infrastructure, by rw [h]; decide, hr "infrastructure/repository" _ rfl h⟩
  · exact ⟨.infrastructure, by rw [h]; decide, hr "infrastructure/adapter" _ rfl h⟩
  · exact ⟨.presentation, by rw [h]; decide, hr "presentation/schema" _ rfl h⟩
  · exact ⟨.presentation, by rw [h]; decide, hr "presentation/dependency" _ rfl h⟩
  · exact ⟨.presentation, by rw [h]; decide, hr "presentation/router" _ rfl h⟩
  · exact ⟨.presentation, by rw [h]; decide, hr "presentation/component" _ rfl h⟩
  · exact ⟨.presentation, by rw [h]; decide, hr "presentation/hook" _ rfl h⟩

/-- Witness for `dispatch_routes_by_layer_seg`: the `domain/entity` item
routes to the Domain generator with the spec passed through unmodified. -/
theorem dispatch_routes_by_layer_seg_witness :
    dispatch specOrder = .ok (.domain, specOrder) := by
  obtain ⟨g, hg, hd⟩ := dispatch_routes_by_layer_seg specOrder (by decide)
  have hval : generatorOfSeg (layerSeg specOrder.layer) = some Generator.domain := by
    decide
  rw [hval] at hg
  have := Option.some.inj hg
  rw [← this] at hd
  exact hd

/-- C7: pluralization consults the irregular-word table before the regular
rule: `resolve("Person")` gives `people`, `resolve("Category")` gives
`categories`, `resolve("Order")` gives `orders`; in general a word in the
table gets the table's result, and a word not in the table gets the regular
rule's result. -/
theorem pluralization_spec :
    ((resolve "Person").map Naming.plural_snake_base = .ok "people") ∧
    ((resolve "Category").map Naming.plural_snake_base = .ok "categories") ∧
    ((resolve "Order").map Naming.plural_snake_base = .ok "orders") ∧
    (∀ w p, irregularPlurals.lookup w = some p → pluralize w = p) ∧
    (∀ w, irregularPlurals.lookup w = none → pluralize w = regularPlural w) := by
  refine ⟨rfl, rfl, rfl, ?_, ?_⟩
  · intro w p h; simp [pluralize, h]
  · intro w h; simp [pluralize, h]

/-- Witness for `pluralization_spec`: the word `person` is in the irregular
table, so its table entry `people` is used. -/
theorem pluralization_spec_witness : pluralize "person" = "people" :=
  pluralization_spec.2.2.2.1 "person" "people" rfl

/-- C5: for an `application/use_case` or `infrastructure/adapter` spec, the
validator's dependency check fails with a `SchemaError` naming an offending
entry whenever some `dependencies` entry does not start with `I` followed by
an uppercase letter, and passes when every entry matches the convention; in
particular `["CartRepo"]` fails naming `CartRepo` and `["ICartRepo"]`
passes validation. -/
theorem dependency_naming_rule :
    (∀ spec : ClassSpec, spec.layer ∈ depsRuleLayers →
      ∀ d ∈ spec.dependencies, isInterfaceStyle d = false →
      ∃ bad ∈ spec.dependencies, isInterfaceStyle bad = false ∧
        checkDeps spec = .error (.schemaError (badDepMsg bad))) ∧
    (∀ spec : ClassSpec, (∀ d ∈ spec.dependencies, isInterfaceStyle d = true) →
      checkDeps spec = .ok ()) ∧
    validate specDepBad = .error (.schemaError (badDepMsg "CartRepo")) ∧
    validate specDepGood = .ok specDepGood := by
  refine ⟨?_, ?_, rfl, rfl⟩
  · intro spec hl d hd hfalse
    have hsome : (spec.dependencies.find? (fun x => !isInterfaceStyle x)).isSome := by
      rw [List.find?_isSome]
      exact ⟨d, hd, by simp [hfalse]⟩
    obtain ⟨bad, hfind⟩ := Option.isSome_iff_exists.mp hsome
    have hmem := List.mem_of_find?_eq_some hfind
    have hp := List.find?_some hfind
    simp only [Bool.not_eq_true'] at hp
    exact ⟨bad, hmem, hp, by simp [checkDeps, hl, hfind]⟩
  · intro spec hall
    have hnone : spec.dependencies.find? (fun x => !isInterfaceStyle x) = none := by
      rw [List.find?_eq_none]
      intro x hx
      simp [hall x hx]
    by_cases hl : spec.layer ∈ depsRuleLayers
    · simp [checkDeps, hl, hnone]
    · simp [checkDeps, hl]

/-- Witness for `dependency_naming_rule`: the all-interface dependency list
`["ICartRepo"]` passes the check. -/
theorem dependency_naming_rule_witness : checkDeps specDepGood = .ok () :=
  dependency_naming_rule.2.1 specDepGood (by decide)

/-- C8: the adapter's error mapping is total over external failures and
yields exactly one of the four typed errors: status 400 → BadRequest,
429 → RateLimited, ≥ 500 → ServerError, every other failing response and
every transport failure → the generic ServiceError; a non-failing response
yields the mapped DTO, never the raw response. -/
theorem adapter_error_mapping :
    (∀ body, createPaymentIntent (.response 400 body) =
      .error (.externalBadRequest "Bad request to Stripe")) ∧
    (∀ body, createPaymentIntent (.response 429 body) =
      .error (.externalRateLimitError "Rate limited by Stripe")) ∧
    (∀ (status : Nat) (body : PaymentData), 500 ≤ status →
      createPaymentIntent (.response status body) =
        .error (.externalServerError "Stripe server error")) ∧
    (∀ (status : Nat) (body : PaymentData),
      400 ≤ status → status < 500 → status ≠ 400 → status ≠ 429 →
      createPaymentIntent (.response status body) =
        .error (.externalServiceError "Unexpected Stripe error")) ∧
    (∀ msg, createPaymentIntent (.transportFailure msg) =
      .error (.externalServiceError ("Request failed after retries: " ++ msg))) ∧
    (∀ (status : Nat) (body : PaymentData), status < 400 →
      createPaymentIntent (.response status body) = .ok (toDto body)) := by
  refine ⟨fun body => rfl, fun body => rfl, ?_, ?_, fun msg => rfl, ?_⟩
  · intro status body h
    have h1 : status ≠ 400 := by omega
    have h2 : status ≠ 429 := by omega
    have h3 : 400 ≤ status := by omega
    simp [createPaymentIntent, mapError, h1, h2, h3, h]
  · intro status body h3 h5 h1 h2
    have h5' : ¬ 500 ≤ status := by omega
    simp [createPaymentIntent, mapError, h1, h2, h3, h5']
  · intro status body h
    have h' : ¬ 400 ≤ status := by omega
    simp [createPaymentIntent, h']

/-- Witness for `adapter_error_mapping`: a 503 response maps to the typed
server error. -/
theorem adapter_error_mapping_witness :
    createPaymentIntent (.response 503 {}) =
      .error (.externalServerError "Stripe server error") :=
  adapter_error_mapping.2.2.1 503 {} (by norm_num)

/-- C4: batch processing has partial-failure semantics: an item whose
`layer` has none of the four known leading segments fails with
`RoutingError`, recorded against its `class_name` with no artifact fields;
every item of a batch is processed independently of the others (so a batch
equals the bad item's record spliced between the unchanged results of the
surrounding items); and the concrete 3-item batch whose second item has an
invalid layer yields exactly 2 artifacts and 1 recorded error. -/
theorem batch_partial_failure :
    (∀ spec : ClassSpec,
      strStarts spec.layer "infrastructure/" = false →
      strStarts spec.layer "presentation/" = false →
      strStarts spec.layer "domain/" = false →
      strStarts spec.layer "application/" = false →
      processItem spec = ⟨spec.class_name, none, some (.routingError spec.layer)⟩) ∧
    (∀ (pre post : List ClassSpec) (bad : ClassSpec),
      processBatch (pre ++ bad :: post) =
        processBatch pre ++ processItem bad :: processBatch post) ∧
    ((processBatch [specOrder, specBadLayer, specGetCartUC]).countP
        (fun r => r.artifact.isSome) = 2) ∧
    ((processBatch [specOrder, specBadLayer, specGetCartUC]).countP
        (fun r => r.recordedError.isSome) = 1) ∧
    processItem specBadLayer = ⟨"Broken", none, some (.routingError "unknown_layer")⟩ := by
  refine ⟨?_, ?_, by decide, by decide, rfl⟩
  · intro spec h1 h2 h3 h4
    simp [processItem, dispatch, route, h1, h2, h3, h4, Except.map]
  · intro pre post bad
    simp [processBatch]

/-- Witness for `batch_partial_failure`: the item with layer
`unknown_layer` fails with `RoutingError` recorded against `Broken`. -/
theorem batch_partial_failure_witness :
    processItem specBadLayer = ⟨"Broken", none, some (.routingError "unknown_layer")⟩ :=
  batch_partial_failure.1 specBadLayer (by decide) (by decide) (by decide) (by decide)

/-- Upserting a key leaves every other key's lookup unchanged. -/
theorem setKey_lookup_ne {α : Type} (l : List (String × α)) {k k' : String}
    (v : α) (h : k' ≠ k) : (setKey l k v).lookup k' = l.lookup k' := by
  induction l with
  | nil => simp [setKey, List.lookup, beq_false_of_ne h]
  | cons hd tl ih =>
    obtain ⟨k0, v0⟩ := hd
    by_cases h0 : k0 = k
    · subst h0
      simp [setKey, List.lookup, beq_false_of_ne h]
    · by_cases hk' : k' = k0
      · subst hk'
        simp [setKey, h0, List.lookup]
      · have hb : (k' == k0) = false := beq_false_of_ne hk'
        simp [setKey, h0, List.lookup, hb, ih]

/-- Upserting the value a key already holds leaves the list unchanged. -/
theorem setKey_of_lookup {α : Type} (l : List (String × α)) (k : String)
    (v : α) (h : l.lookup k = some v) : setKey l k v = l := by
  induction l with
  | nil => simp [List.lookup] at h
  | cons hd tl ih =>
    obtain ⟨k0, v0⟩ := hd
    by_cases h0 : k0 = k
    · subst h0
      have hv : v0 = v := by simpa [List.lookup] using h
      simp [setKey, hv]
    · have hb : (k == k0) = false := beq_false_of_ne (Ne.symm h0)
      have h' : tl.lookup k = some v := by simpa [List.lookup, hb] using h
      simp [setKey, h0, ih h']

/-- Folding upserts whose keys avoid `k` leaves `k`'s lookup unchanged. -/
theorem applyAll_lookup_not_mem (s entries : List (String × ArtifactDescriptor))
    (k : String) (h : k ∉ entries.map Prod.fst) :
    (applyAll s entries).lookup k = s.lookup k := by
  induction entries generalizing s with
  | nil => rfl
  | cons kv t ih =>
    obtain ⟨k0, v0⟩ := kv
    simp only [List.map_cons, List.mem_cons] at h
    push_neg at h
    obtain ⟨hne, hnm⟩ := h
    have hstep : applyAll s ((k0, v0) :: t) = applyAll (setKey s k0 v0) t := rfl
    rw [hstep, ih _ hnm, setKey_lookup_ne _ _ hne]

/-- After folding upserts with pairwise-distinct keys, every upserted pair
is what its key looks up to. -/
theorem applyAll_lookup_of_nodup (s entries : List (String × ArtifactDescriptor))
    (h : (entries.map Prod.fst).Nodup) (k : String) (v : ArtifactDescriptor)
    (hm : (k, v) ∈ entries) : (applyAll s entries).lookup k = some v := by
  induction entries generalizing s with
  | nil => simp at hm
  | cons kv t ih =>
    obtain ⟨k0, v0⟩ := kv
    simp only [List.map_cons, List.nodup_cons] at h
    obtain ⟨hk0, hnd⟩ := h
    have hstep : applyAll s ((k0, v0) :: t) = applyAll (setKey s k0 v0) t := rfl
    rcases List.mem_cons.mp hm with heq | hmt
    · injection heq with hk hv
      subst hk; subst hv
      rw [hstep, applyAll_lookup_not_mem _ _ _ hk0, setKey_lookup]
    · rw [hstep]
      exact ih _ hnd hmt

/-- Folding upserts that each re-assert a lookup the registry already
satisfies leaves the registry unchanged. -/
theorem applyAll_fix (entries s : List (String × ArtifactDescriptor))
    (h : ∀ kv ∈ entries, s.lookup kv.1 = some kv.2) : applyAll s entries = s := by
  induction entries with
  | nil => rfl
  | cons kv t ih =>
    obtain ⟨k0, v0⟩ := kv
    have h0 : s.lookup k0 = some v0 := h (k0, v0) (List.mem_cons_self _ _)
    have hstep : applyAll s ((k0, v0) :: t) = applyAll (setKey s k0 v0) t := rfl
    rw [hstep, setKey_of_lookup s k0 v0 h0]
    exact ih fun kv hkv => h kv (List.mem_cons_of_mem _ hkv)

/-- The keys the registry records for a batch are a sublist of the batch
results' class names. -/
theorem successEntries_keys_sublist (results : List BatchItemResult) :
    ((successEntries results).map Prod.fst).Sublist
      (results.map BatchItemResult.class_name) := by
  induction results with
  | nil => simp [successEntries]
  | cons r t ih =>
    cases ha : r.artifact with
    | none =>
      have he : successEntries (r :: t) = successEntries t := by
        simp [successEntries, ha]
      rw [he]
      exact ih.cons _
    | some a =>
      have he : successEntries (r :: t) = (r.class_name, a) :: successEntries t := by
        simp [successEntries, ha]
      rw [he, List.map_cons]
      exact ih.cons₂ _

/-- `processItem` records each result under the item's own `class_name`. -/
theorem processBatch_names (batch : List ClassSpec) :
    (processBatch batch).map BatchItemResult.class_name =
      batch.map ClassSpec.class_name := by
  induction batch with
  | nil => rfl
  | cons s t ih =>
    have hn : (processItem s).class_name = s.class_name := by
      cases hd : dispatch s with
      | error e => simp [processItem, hd]
      | ok gs =>
        obtain ⟨g, sp⟩ := gs
        simp [processItem, hd]
    simp only [processBatch, List.map_cons, List.map_map] at ih ⊢
    rw [← ih]
    simp [hn, processBatch]

/-- The keys after an upsert: unchanged when the key was present, else the
key is appended. -/
theorem keys_setKey {α : Type} (l : List (String × α)) (k : String) (v : α) :
    (setKey l k v).map Prod.fst =
      if k ∈ l.map Prod.fst then l.map Prod.fst else l.map Prod.fst ++ [k] := by
  induction l with
  | nil => simp [setKey]
  | cons hd tl ih =>
    obtain ⟨k0, v0⟩ := hd
    by_cases h0 : k0 = k
    · subst h0
      simp [setKey]
    · simp only [setKey]
      rw [if_neg h0]
      simp only [List.map_cons, ih]
      by_cases hmem : k ∈ tl.map Prod.fst
      · simp [hmem, List.mem_cons, Ne.symm h0]
      · simp [hmem, List.mem_cons, Ne.symm h0]

/-- An upsert into a duplicate-free registry keeps it duplicate-free. -/
theorem keys_setKey_nodup {α : Type} (l : List (String × α)) (k : String)
    (v : α) (h : (l.map Prod.fst).Nodup) :
    ((setKey l k v).map Prod.fst).Nodup := by
  rw [keys_setKey]
  by_cases hmem : k ∈ l.map Prod.fst
  · simpa [hmem] using h
  · rw [if_neg hmem, List.nodup_append]
    refine ⟨h, List.nodup_singleton k, ?_⟩
    intro a ha hak
    rw [List.mem_singleton] at hak
    subst hak
    exact hmem ha

/-- C6: the pipeline is idempotent w.r.t. the Artifact Registry: submitting
the same batch (with pairwise-distinct class names, as the spec requires of
a batch) twice produces identical per-item outputs and leaves the registry
exactly as after the first submission; and an upsert of an
already-registered `class_name` overwrites that entry — its lookup is the
new artifact — and never creates a duplicate (distinct keys stay
distinct). -/
theorem pipeline_idempotent :
    (∀ (reg : Registry) (batch : List ClassSpec),
      (batch.map ClassSpec.class_name).Nodup →
      runBatch (runBatch reg batch).2 batch = runBatch reg batch) ∧
    (∀ (reg : List (String × ArtifactDescriptor)) (k : String)
      (v : ArtifactDescriptor),
      (setKey reg k v).lookup k = some v ∧
      ((reg.map Prod.fst).Nodup → ((setKey reg k v).map Prod.fst).Nodup)) := by
  constructor
  · intro reg batch hnd
    have hkeys : ((successEntries (processBatch batch)).map Prod.fst).Nodup := by
      refine List.Sublist.nodup (successEntries_keys_sublist (processBatch batch)) ?_
      rw [processBatch_names]
      exact hnd
    have hfix : applyAll (applyAll reg (successEntries (processBatch batch)))
        (successEntries (processBatch batch)) =
        applyAll reg (successEntries (processBatch batch)) :=
      applyAll_fix _ _ fun kv hkv =>
        applyAll_lookup_of_nodup reg _ hkeys kv.1 kv.2 hkv
    simp only [runBatch]
    rw [hfix]
  · intro reg k v
    refine ⟨setKey_lookup reg k v, ?_⟩
    intro hnd
    exact keys_setKey_nodup reg k v hnd

/-- Witness for `pipeline_idempotent`: re-submitting the two-item batch
`[specOrder, specGetCartUC]` from the empty registry reproduces the first
run's outputs and registry. -/
theorem pipeline_idempotent_witness :
    runBatch (runBatch [] [specOrder, specGetCartUC]).2 [specOrder, specGetCartUC] =
      runBatch [] [specOrder, specGetCartUC] :=
  pipeline_idempotent.1 [] [specOrder, specGetCartUC] (by decide)

end Onion
